import Mathlib

/-!
Shallow embedding of the SatsForGood invoice and donation lifecycle.

The frontend module `src/lib/api.ts` is an in-memory mock backend with three
module-level variables (`mockDonations`, `pendingInvoice`, `pollCount`); we
model them as an explicit `ApiState` threaded through the operations, and the
two sources of nondeterminism (`Date.now()` and `new Date().toISOString()`)
as an explicit `now : Nat` argument.  The production backend client
(`confirmPayment`, the backend `getInvoiceStatus`, and the receipt fetch
fallback of `donation-receipt.tsx`) is modelled in the `Backend` namespace,
with the outcome of each `fetch` passed in as an explicit `FetchOutcome`.
-/

namespace SatsForGood

/-- Status values of the TS union type `"PENDING" | "PAID" | "EXPIRED"`
from `src/lib/types.ts`. -/
inductive StatusKind where
  | PENDING
  | PAID
  | EXPIRED
deriving Repr, DecidableEq

/-- The `InvoiceStatus` interface of `src/lib/types.ts`: a status plus an
optional `paid_at` timestamp. -/
structure InvoiceStatus where
  status : StatusKind
  paid_at : Option Nat := none
deriving Repr, DecidableEq

/-- The `Invoice` interface of `src/lib/types.ts` (the `qr_code` field is
absent in the mock backend and unused by every claim). -/
structure Invoice where
  invoice : String
  payment_hash : String
  expires_in : Nat
  donor_name : String
  recipient : Option String
  amount_sats : Int
deriving Repr, DecidableEq

/-- The `Donation` interface of `src/lib/types.ts`. -/
structure Donation where
  id : String
  donor_name : String
  recipient : Option String
  amount_sats : Int
  status : StatusKind
  paid_at : Nat
deriving Repr, DecidableEq

/-- The three module-level mutable variables of `src/lib/api.ts`. -/
structure ApiState where
  mockDonations : List Donation
  pendingInvoice : Option Invoice
  pollCount : Nat
deriving Repr, DecidableEq

/-- The state at module load: `mockDonations = []`, `pendingInvoice = null`,
`pollCount = 0`. -/
def initialState : ApiState :=
  { mockDonations := [], pendingInvoice := none, pollCount := 0 }

/-- Aggregates returned by `getDonationStats`. -/
structure DonationStats where
  totalSats : Int
  donorCount : Nat
deriving Repr, DecidableEq

namespace Api

/-- The template string `mock_payment_hash_${Date.now()}` of `createInvoice`. -/
def mkPaymentHash (now : Nat) : String :=
  "mock_payment_hash_" ++ toString now

/-- The regex replacement `donor_name.replace(/\s/g, "_")` used when building
the invoice string. -/
def sanitizeName (s : String) : String :=
  String.mk (s.data.map (fun c => if c.isWhitespace then '_' else c))

/-- Mock `createInvoice(amount_sats, donor_name = "Anonymous", recipient?)`
from `src/lib/api.ts`.  A `none` donor name models an absent (undefined)
argument, which the TS default parameter replaces by "Anonymous"; any passed
string, empty or not, is kept verbatim.  Returns the new invoice and the
updated module state: the single `pendingInvoice` slot is overwritten and
`pollCount` is reset to 0. -/
def createInvoice (amount_sats : Int) (donor_name : Option String)
    (recipient : Option String) (now : Nat) (s : ApiState) :
    Invoice × ApiState :=
  let name := donor_name.getD ("Anonymous")
  let payment_hash := mkPaymentHash now
  let invoiceString :=
    "ln-testnet-invoice-" ++ toString amount_sats ++ "-" ++
      sanitizeName name ++ "-" ++ payment_hash
  let newInvoice : Invoice :=
    { invoice := invoiceString
      payment_hash := payment_hash
      expires_in := 3600
      donor_name := name
      recipient := recipient
      amount_sats := amount_sats }
  (newInvoice, { s with pendingInvoice := some newInvoice, pollCount := 0 })

/-- Mock `getInvoiceStatus(payment_hash)` from `src/lib/api.ts`.  If the
queried hash is not the hash of the current `pendingInvoice` (including when
no invoice is pending), it returns PENDING and leaves the state untouched.
Otherwise it increments `pollCount`; once the incremented count reaches 2 it
fabricates `paid_at = now`, unshifts a new `Donation` onto `mockDonations`
(the donor name passes through the JS `||` operator, so only the empty string
becomes "Anonymous"), clears `pendingInvoice`, resets `pollCount`, and
returns PAID; before that it returns PENDING. -/
def getInvoiceStatus (payment_hash : String) (now : Nat) (s : ApiState) :
    InvoiceStatus × ApiState :=
  match s.pendingInvoice with
  | none => ({ status := .PENDING }, s)
  | some pending =>
    if payment_hash ≠ pending.payment_hash then
      ({ status := .PENDING }, s)
    else
      let pollCount := s.pollCount + 1
      if pollCount ≥ 2 then
        let paid_at := now
        let newDonation : Donation :=
          { id := toString (s.mockDonations.length + 1)
            donor_name :=
              if pending.donor_name = "" then "Anonymous"
              else pending.donor_name
            recipient := pending.recipient
            amount_sats := pending.amount_sats
            status := .PAID
            paid_at := paid_at }
        ({ status := .PAID, paid_at := some paid_at },
          { mockDonations := newDonation :: s.mockDonations
            pendingInvoice := none
            pollCount := 0 })
      else
        ({ status := .PENDING }, { s with pollCount := pollCount })

/-- Mock `getRecentDonations()` from `src/lib/api.ts`: `mockDonations.slice(0, 5)`.
It takes no limit argument. -/
def getRecentDonations (s : ApiState) : List Donation :=
  s.mockDonations.take 5

/-- Mock `getDonationStats()` from `src/lib/api.ts`: a fresh `reduce` over
`mockDonations` for the total and its `length` for the count. -/
def getDonationStats (s : ApiState) : DonationStats :=
  { totalSats := s.mockDonations.foldl (fun acc d => acc + d.amount_sats) 0
    donorCount := s.mockDonations.length }

end Api

/-- The zod amount rule of the donate form schema:
`z.coerce.number().min(1).max(1000000)` (integrality is not checked by the
schema; the claims only exercise integer inputs). -/
def formSchemaAmountOk (amount : Int) : Bool :=
  1 ≤ amount && amount ≤ 1000000

/-- One externally triggered operation on the mock API state; the arguments
carry the caller inputs and the `Date.now()` value observed by the call. -/
inductive Step where
  | create (amount_sats : Int) (donor_name : Option String)
      (recipient : Option String) (now : Nat)
  | check (payment_hash : String) (now : Nat)
deriving Repr, DecidableEq

/-- State reached after one step, discarding the returned value. -/
def execStep (s : ApiState) : Step → ApiState
  | .create a n r t => (Api.createInvoice a n r t s).2
  | .check h t => (Api.getInvoiceStatus h t s).2

/-- State reached after a sequence of steps. -/
def run (s : ApiState) (steps : List Step) : ApiState :=
  steps.foldl execStep s

/-- States reachable from module load through the public operations. -/
inductive Reachable : ApiState → Prop where
  | init : Reachable initialState
  | create (a : Int) (n r : Option String) (t : Nat) (s : ApiState) :
      Reachable s → Reachable (Api.createInvoice a n r t s).2
  | check (h : String) (t : Nat) (s : ApiState) :
      Reachable s → Reachable (Api.getInvoiceStatus h t s).2

/-- The queried hash does not match the pending invoice (in particular when
no invoice is pending). -/
def pendingHashNe (s : ApiState) (h : String) : Prop :=
  ∀ inv, s.pendingInvoice = some inv → inv.payment_hash ≠ h

/-- A step that cannot install `h` as the pending payment hash: any status
check, or an invoice creation whose timestamp generates a different hash. -/
def stepAvoids (h : String) : Step → Prop
  | .create _ _ _ t => Api.mkPaymentHash t ≠ h
  | .check _ _ => True

namespace Backend

/-- Outcome of one `fetch` call as observed by the client code: a parsed OK
response, a non-OK HTTP response, or a rejected (thrown) network request. -/
inductive FetchOutcome (α : Type) where
  | ok (data : α)
  | httpError
  | networkError
deriving Repr, DecidableEq

/-- Backend client `getInvoiceStatus` of the production api module
(src/unnamed/part_002): a non-OK response throws
"Failed to check payment status", a rejected fetch propagates its own error,
and only an OK response yields a status value. -/
def getInvoiceStatus (resp : FetchOutcome InvoiceStatus) :
    Except String InvoiceStatus :=
  match resp with
  | .ok data => .ok data
  | .httpError => .error ("Failed to check payment status")
  | .networkError => .error ("fetch rejected")

/-- Backend client `confirmPayment` of the production api module: an OK
response is returned as-is; on a non-OK response or a rejected fetch the
function falls through its try/catch and fabricates a successful
confirmation with `paid_at` taken from the local clock. -/
def confirmPayment (resp : FetchOutcome InvoiceStatus) (now : Nat) :
    InvoiceStatus :=
  match resp with
  | .ok data => data
  | .httpError => { status := .PAID, paid_at := some now }
  | .networkError => { status := .PAID, paid_at := some now }

/-- The `DonationReceipt` interface of the production api module. -/
structure DonationReceipt where
  id : String
  donor_name : String
  recipient : Option String
  amount_sats : Int
  payment_hash : String
  paid_at : Nat
  transaction_id : String
  network : String
deriving Repr, DecidableEq

/-- The fallback receipt fabricated by `DonationReceiptComponent.fetchReceipt`
in `donation-receipt.tsx` when `getDonationReceipt` fails: a synthetic id
from the local clock, a local `paid_at`, and a synthetic transaction
identifier derived from the payment hash and the amount. -/
def fallbackReceipt (payment_hash : String) (amount_sats : Int)
    (donor_name : String) (recipient : Option String) (now : Nat) :
    DonationReceipt :=
  { id := "donation_" ++ toString now
    donor_name := donor_name
    recipient := recipient
    amount_sats := amount_sats
    payment_hash := payment_hash
    paid_at := now
    transaction_id := "lntx1" ++ payment_hash.take 8 ++ "w" ++
      toString amount_sats
    network := "Bitcoin Lightning Network (Testnet)" }

/-- The receipt that `DonationReceiptComponent` ends up displaying: the
backend receipt when the fetch succeeds, otherwise the locally fabricated
fallback receipt. -/
def displayedReceipt (resp : FetchOutcome DonationReceipt)
    (payment_hash : String) (amount_sats : Int) (donor_name : String)
    (recipient : Option String) (now : Nat) : DonationReceipt :=
  match resp with
  | .ok r => r
  | .httpError => fallbackReceipt payment_hash amount_sats donor_name recipient now
  | .networkError => fallbackReceipt payment_hash amount_sats donor_name recipient now

end Backend

-- Concrete runs used by counterexamples and witnesses.

/-- Invoice of the C1 run, created at time 10. -/
def c1Invoice : Invoice :=
  (Api.createInvoice 100 (some ("Ann")) (some ("Shelter")) 10 initialState).1

/-- State right after the C1 invoice is created. -/
def c1S1 : ApiState :=
  (Api.createInvoice 100 (some ("Ann")) (some ("Shelter")) 10 initialState).2

/-- State after the first status poll of the C1 run. -/
def c1S2 : ApiState := (Api.getInvoiceStatus c1Invoice.payment_hash 20 c1S1).2

/-- State after the second (paying) status poll of the C1 run. -/
def c1S3 : ApiState := (Api.getInvoiceStatus c1Invoice.payment_hash 30 c1S2).2

/-- Invoice used by the C1 witness, created at time 5. -/
def c1wInvoice : Invoice :=
  (Api.createInvoice 750 (some ("Bob")) none 5 initialState).1

/-- State used by the C1 witness: the witness invoice pending with one poll
already counted. -/
def c1wState : ApiState :=
  { mockDonations := [], pendingInvoice := some c1wInvoice, pollCount := 1 }

/-- State of the C4 run: an invoice created at time 0 is pending. -/
def c4State : ApiState := (Api.createInvoice 100 none none 0 initialState).2

/-- State of the C5 run after creating an invoice at time 1. -/
def c5S1 : ApiState := (Api.createInvoice 250 none none 1 initialState).2

/-- Payment hash of the C5 run invoice. -/
def c5Hash : String := Api.mkPaymentHash 1

/-- State of the C5 run after the first poll. -/
def c5S2 : ApiState := (Api.getInvoiceStatus c5Hash 2 c5S1).2

/-- State of the C5 run after the second, paying poll. -/
def c5S3 : ApiState := (Api.getInvoiceStatus c5Hash 3 c5S2).2

/-- Five complete payment cycles at increasing timestamps: each cycle is a
creation followed by two polls, the second of which records the donation. -/
def fiveSteps : List Step :=
  [ .create 100 (some ("d1")) none 10,
    .check (Api.mkPaymentHash 10) 11,
    .check (Api.mkPaymentHash 10) 12,
    .create 200 (some ("d2")) none 20,
    .check (Api.mkPaymentHash 20) 21,
    .check (Api.mkPaymentHash 20) 22,
    .create 300 (some ("d3")) none 30,
    .check (Api.mkPaymentHash 30) 31,
    .check (Api.mkPaymentHash 30) 32,
    .create 400 (some ("d4")) none 40,
    .check (Api.mkPaymentHash 40) 41,
    .check (Api.mkPaymentHash 40) 42,
    .create 500 (some ("d5")) none 50,
    .check (Api.mkPaymentHash 50) 51,
    .check (Api.mkPaymentHash 50) 52 ]

/-- State after the five payment cycles of `fiveSteps`. -/
def fiveState : ApiState := run initialState fiveSteps

/-- Invoice used by the C8 witness, created with an explicitly empty donor
name at time 5. -/
def c8Invoice : Invoice :=
  (Api.createInvoice 100 (some ("")) none 5 initialState).1

/-- State used by the C8 witness: the empty-name invoice pending with one
poll already counted. -/
def c8State : ApiState :=
  { mockDonations := [], pendingInvoice := some c8Invoice, pollCount := 1 }

/-- State of the C10 run after the first invoice is created at time 1. -/
def c10S0 : ApiState := (Api.createInvoice 100 none none 1 initialState).2

/-- Payment hash of the first invoice of the C10 run. -/
def c10H : String := Api.mkPaymentHash 1

/-- Later steps of the C10 run: two polls of the second invoice. -/
def c10Steps : List Step :=
  [ .check (Api.mkPaymentHash 2) 3, .check (Api.mkPaymentHash 2) 4 ]

-- Shared lemmas about the mock operations.

theorem createInvoice_pending (a : Int) (n r : Option String) (t : Nat)
    (s : ApiState) :
    (Api.createInvoice a n r t s).2.pendingInvoice
      = some (Api.createInvoice a n r t s).1 := rfl

theorem createInvoice_hash (a : Int) (n r : Option String) (t : Nat)
    (s : ApiState) :
    (Api.createInvoice a n r t s).1.payment_hash = Api.mkPaymentHash t := rfl

theorem check_miss (h : String) (t : Nat) (s : ApiState)
    (hne : pendingHashNe s h) :
    Api.getInvoiceStatus h t s = ({ status := .PENDING, paid_at := none }, s) := by
  unfold Api.getInvoiceStatus
  cases hp : s.pendingInvoice with
  | none => rfl
  | some pending =>
    dsimp only
    rw [if_pos (Ne.symm (hne pending hp))]

theorem check_pending_cases (h : String) (t : Nat) (s : ApiState) :
    (Api.getInvoiceStatus h t s).2.pendingInvoice = s.pendingInvoice
    ∨ (Api.getInvoiceStatus h t s).2.pendingInvoice = none := by
  unfold Api.getInvoiceStatus
  cases hp : s.pendingInvoice with
  | none => left; rw [hp]
  | some pending =>
    dsimp only
    by_cases hm : h ≠ pending.payment_hash
    · rw [if_pos hm]; left; exact hp
    · rw [if_neg hm]
      by_cases h2 : s.pollCount + 1 ≥ 2
      · rw [if_pos h2]; right; rfl
      · rw [if_neg h2]; left; rfl

theorem pendingHashNe_exec (s : ApiState) (h : String) (st : Step)
    (hne : pendingHashNe s h) (hav : stepAvoids h st) :
    pendingHashNe (execStep s st) h := by
  cases st with
  | create a n r t =>
    intro inv hinv
    simp only [execStep, createInvoice_pending] at hinv
    injection hinv with hinv2
    rw [← hinv2, createInvoice_hash]
    exact hav
  | check hq t =>
    intro inv hinv
    simp only [execStep] at hinv
    rcases check_pending_cases hq t s with hc | hc
    · rw [hc] at hinv
      exact hne inv hinv
    · rw [hc] at hinv
      exact absurd hinv (by simp)

theorem pendingHashNe_run (steps : List Step) (s : ApiState) (h : String)
    (hne : pendingHashNe s h) (hav : ∀ st ∈ steps, stepAvoids h st) :
    pendingHashNe (run s steps) h := by
  induction steps generalizing s with
  | nil => exact hne
  | cons st rest ih =>
    exact ih (execStep s st)
      (pendingHashNe_exec s h st hne (hav st (by simp)))
      (fun st2 hm => hav st2 (by simp [hm]))

theorem foldl_amount_eq_sum (l : List Donation) (acc : Int) :
    l.foldl (fun a d => a + d.amount_sats) acc
      = acc + (l.map (fun d => d.amount_sats)).sum := by
  induction l generalizing acc with
  | nil => simp
  | cons d rest ih =>
    simp [List.foldl_cons, List.map_cons, List.sum_cons, ih, add_assoc]

theorem check_hit_paid (inv : Invoice) (t : Nat) (s : ApiState)
    (hp : s.pendingInvoice = some inv) (hc : 1 ≤ s.pollCount) :
    Api.getInvoiceStatus inv.payment_hash t s
      = ({ status := .PAID, paid_at := some t },
          { mockDonations :=
              { id := toString (s.mockDonations.length + 1)
                donor_name :=
                  if inv.donor_name = "" then "Anonymous" else inv.donor_name
                recipient := inv.recipient
                amount_sats := inv.amount_sats
                status := .PAID
                paid_at := t } :: s.mockDonations
            pendingInvoice := none
            pollCount := 0 }) := by
  unfold Api.getInvoiceStatus
  rw [hp]
  dsimp only
  rw [if_neg (by simp), if_pos (by omega)]

/-- C1, amended: in the mock backend the oracle is the poll counter, which
reports paid on the second poll of the pending invoice.  That paying call
returns PAID with `paid_at` set to the observed clock, appends exactly one
Donation so that the donor count rises by exactly 1 and the total by exactly
the invoice amount; but every subsequent call for the same payment hash
returns PENDING without a `paid_at` and leaves the state (hence the
aggregates) unchanged, rather than returning PAID again. -/
theorem c1_paid_call_promotes_once (s : ApiState) (inv : Invoice) (t : Nat)
    (hp : s.pendingInvoice = some inv) (hc : 1 ≤ s.pollCount) :
    (Api.getInvoiceStatus inv.payment_hash t s).1
        = { status := .PAID, paid_at := some t }
    ∧ (Api.getDonationStats (Api.getInvoiceStatus inv.payment_hash t s).2).donorCount
        = (Api.getDonationStats s).donorCount + 1
    ∧ (Api.getDonationStats (Api.getInvoiceStatus inv.payment_hash t s).2).totalSats
        = (Api.getDonationStats s).totalSats + inv.amount_sats
    ∧ ∀ t2, Api.getInvoiceStatus inv.payment_hash t2
          (Api.getInvoiceStatus inv.payment_hash t s).2
        = ({ status := .PENDING, paid_at := none },
            (Api.getInvoiceStatus inv.payment_hash t s).2) := by
  have hkey := check_hit_paid inv t s hp hc
  refine ⟨by rw [hkey], ?_, ?_, ?_⟩
  · rw [hkey]
    simp [Api.getDonationStats]
  · rw [hkey]
    simp only [Api.getDonationStats, foldl_amount_eq_sum, List.map_cons,
      List.sum_cons]
    ring
  · intro t2
    rw [hkey]
    apply check_miss
    intro inv2 hinv2
    simp at hinv2

/-- C1 witness: the amended statement applied to a concrete pending invoice
that has already been polled once. -/
theorem c1_paid_call_promotes_once_witness :
    c1wState.pendingInvoice = some c1wInvoice
    ∧ 1 ≤ c1wState.pollCount
    ∧ (Api.getInvoiceStatus c1wInvoice.payment_hash 6 c1wState).1
        = { status := .PAID, paid_at := some 6 }
    ∧ Api.getInvoiceStatus c1wInvoice.payment_hash 7
          (Api.getInvoiceStatus c1wInvoice.payment_hash 6 c1wState).2
        = ({ status := .PENDING, paid_at := none },
            (Api.getInvoiceStatus c1wInvoice.payment_hash 6 c1wState).2) :=
  ⟨rfl, by decide,
    (c1_paid_call_promotes_once c1wState c1wInvoice 6 rfl (by decide)).1,
    (c1_paid_call_promotes_once c1wState c1wInvoice 6 rfl (by decide)).2.2.2 7⟩

/-- C1 counterexample: the first status call for a freshly created invoice
returns PENDING, not PAID; the second returns PAID; and the call after the
paying one returns PENDING without any `paid_at`, contradicting both the
first-call and the every-subsequent-call parts of the claim. -/
theorem c1_first_and_later_calls_counterexample :
    (Api.getInvoiceStatus c1Invoice.payment_hash 20 c1S1).1.status = .PENDING
    ∧ (Api.getInvoiceStatus c1Invoice.payment_hash 30 c1S2).1.status = .PAID
    ∧ (Api.getInvoiceStatus c1Invoice.payment_hash 40 c1S3).1.status = .PENDING
    ∧ (Api.getInvoiceStatus c1Invoice.payment_hash 40 c1S3).1.paid_at = none := by
  decide

/-- C2, amended: a payment hash that does not match the single pending
invoice, in particular any identifier that was never created, makes
`getInvoiceStatus` return PENDING with the state unchanged; the mock API has
no NotFound outcome at all. -/
theorem c2_unknown_hash_returns_pending (h : String) (t : Nat) (s : ApiState)
    (hne : pendingHashNe s h) :
    (Api.getInvoiceStatus h t s).1.status = .PENDING
    ∧ (Api.getInvoiceStatus h t s).2 = s := by
  rw [check_miss h t s hne]
  exact ⟨rfl, rfl⟩

/-- C2 witness: the amended statement applied to an identifier that was
never created, in the initial state. -/
theorem c2_unknown_hash_returns_pending_witness :
    pendingHashNe initialState ("no_such_payment_hash")
    ∧ (Api.getInvoiceStatus ("no_such_payment_hash") 0 initialState).1.status
        = .PENDING
    ∧ (Api.getInvoiceStatus ("no_such_payment_hash") 0 initialState).2
        = initialState :=
  ⟨fun inv hinv => Option.noConfusion hinv,
    c2_unknown_hash_returns_pending ("no_such_payment_hash") 0 initialState
      (fun inv hinv => Option.noConfusion hinv)⟩

/-- C2 counterexample: querying a never-created identifier returns PENDING,
one of the three ordinary states, so the outcome is not a distinct NotFound. -/
theorem c2_notfound_counterexample :
    (Api.getInvoiceStatus ("no_such_payment_hash") 0 initialState).1.status
      = .PENDING := by
  decide

/-- C3, amended: `createInvoice` itself performs no amount validation and
never fails: for every amount, including 0 and 1000001, it returns and
stores an invoice carrying that amount.  The interval check on [1, 1000000]
exists only in the zod schema of the donate form, which accepts exactly the
amounts in that interval. -/
theorem c3_no_validation_in_createInvoice :
    (∀ (a : Int) (n r : Option String) (t : Nat) (s : ApiState),
        (Api.createInvoice a n r t s).1.amount_sats = a
        ∧ (Api.createInvoice a n r t s).2.pendingInvoice
            = some (Api.createInvoice a n r t s).1)
    ∧ (∀ a : Int, formSchemaAmountOk a = true ↔ 1 ≤ a ∧ a ≤ 1000000) := by
  refine ⟨fun a n r t s => ⟨rfl, rfl⟩, fun a => ?_⟩
  simp [formSchemaAmountOk]

/-- C3 counterexample: `createInvoice` succeeds and stores the invoice both
for amount 0 and for amount 1000001, instead of failing with InvalidAmount. -/
theorem c3_invalid_amount_counterexample :
    (Api.createInvoice 0 none none 3 initialState).1.amount_sats = 0
    ∧ (Api.createInvoice 0 none none 3 initialState).2.pendingInvoice
        = some (Api.createInvoice 0 none none 3 initialState).1
    ∧ (Api.createInvoice 1000001 none none 4 initialState).1.amount_sats
        = 1000001
    ∧ (Api.createInvoice 1000001 none none 4 initialState).2.pendingInvoice
        = some (Api.createInvoice 1000001 none none 4 initialState).1 :=
  ⟨rfl, rfl, rfl, rfl⟩

/-- C4, amended: the mock backend never consults the clock against
`expires_in`: no status call ever returns EXPIRED, for any state, queried
hash or query time. -/
theorem c4_status_never_expired (h : String) (t : Nat) (s : ApiState) :
    (Api.getInvoiceStatus h t s).1.status ≠ .EXPIRED := by
  unfold Api.getInvoiceStatus
  cases hp : s.pendingInvoice with
  | none => exact fun hcon => StatusKind.noConfusion hcon
  | some pending =>
    dsimp only
    by_cases hm : h ≠ pending.payment_hash
    · rw [if_pos hm]; exact fun hcon => StatusKind.noConfusion hcon
    · rw [if_neg hm]
      by_cases h2 : s.pollCount + 1 ≥ 2
      · rw [if_pos h2]; exact fun hcon => StatusKind.noConfusion hcon
      · rw [if_neg h2]; exact fun hcon => StatusKind.noConfusion hcon

/-- C4 counterexample: an invoice created at time 0 with `expires_in` 3600,
queried at time 7200, still answers PENDING and is still stored, instead of
being removed and reported EXPIRED. -/
theorem c4_expiry_counterexample :
    (Api.createInvoice 100 none none 0 initialState).1.expires_in = 3600
    ∧ (Api.getInvoiceStatus (Api.mkPaymentHash 0) 7200 c4State).1.status
        = .PENDING
    ∧ (Api.getInvoiceStatus (Api.mkPaymentHash 0) 7200 c4State).2.pendingInvoice
        = c4State.pendingInvoice := by
  decide

/-- C5, confirmed: in every reachable state the aggregates returned by
`getDonationStats` equal a fresh scan of the donation ledger: the total is
the sum of the stored amounts and the count is the number of stored
donations. -/
theorem c5_stats_match_ledger_scan (s : ApiState) (hr : Reachable s) :
    (Api.getDonationStats s).totalSats
        = (s.mockDonations.map (fun d => d.amount_sats)).sum
    ∧ (Api.getDonationStats s).donorCount = s.mockDonations.length := by
  refine ⟨?_, rfl⟩
  simp only [Api.getDonationStats]
  rw [foldl_amount_eq_sum]
  simp

/-- C5 witness: the statement applied to the reachable state holding one
completed 250-sat donation. -/
theorem c5_stats_match_ledger_scan_witness :
    Reachable c5S3
    ∧ (Api.getDonationStats c5S3).totalSats
        = (c5S3.mockDonations.map (fun d => d.amount_sats)).sum
    ∧ (Api.getDonationStats c5S3).donorCount = c5S3.mockDonations.length :=
  ⟨Reachable.check c5Hash 3 c5S2 (Reachable.check c5Hash 2 c5S1
      (Reachable.create 250 none none 1 initialState Reachable.init)),
    c5_stats_match_ledger_scan c5S3
      (Reachable.check c5Hash 3 c5S2 (Reachable.check c5Hash 2 c5S1
        (Reachable.create 250 none none 1 initialState Reachable.init)))⟩

/-- C6, amended: the backend status query does surface unavailability as an
error distinct from every status, but `confirmPayment` maps any backend
failure, HTTP or network, to a fabricated PAID with `paid_at` read from the
local clock, and the receipt component substitutes the locally fabricated
fallback receipt when the receipt fetch fails. -/
theorem c6_backend_failure_behaviour :
    (∀ st : InvoiceStatus, Backend.getInvoiceStatus (.ok st) = .ok st)
    ∧ Backend.getInvoiceStatus .httpError
        = .error ("Failed to check payment status")
    ∧ Backend.getInvoiceStatus .networkError = .error ("fetch rejected")
    ∧ (∀ t, Backend.confirmPayment .httpError t
        = { status := .PAID, paid_at := some t })
    ∧ (∀ t, Backend.confirmPayment .networkError t
        = { status := .PAID, paid_at := some t })
    ∧ (∀ ph a dn r t, Backend.displayedReceipt .httpError ph a dn r t
        = Backend.fallbackReceipt ph a dn r t)
    ∧ (∀ ph a dn r t, Backend.displayedReceipt .networkError ph a dn r t
        = Backend.fallbackReceipt ph a dn r t) :=
  ⟨fun _ => rfl, rfl, rfl, fun _ => rfl, fun _ => rfl,
    fun _ _ _ _ _ => rfl, fun _ _ _ _ _ => rfl⟩

/-- C6 counterexample: a failed confirmation yields PAID with a locally
fabricated `paid_at`, and a failed receipt fetch yields a locally fabricated
receipt with a synthetic transaction identifier. -/
theorem c6_fabricated_paid_counterexample :
    Backend.confirmPayment .httpError 55
        = { status := .PAID, paid_at := some 55 }
    ∧ (Backend.displayedReceipt .httpError ("hash1234abcd") 2500 ("Ann")
          none 77).transaction_id = "lntx1hash1234w2500" := by
  exact ⟨rfl, by decide⟩

/-- C7, amended: `getRecentDonations` takes no limit argument; it always
returns the first five entries of the donation list, which are the most
recent in most-recent-first order because payments are unshifted onto the
front.  After the five payment cycles of `fiveSteps` it returns all five
donations, newest first. -/
theorem c7_recent_donations_no_limit :
    (∀ s : ApiState,
        Api.getRecentDonations s = s.mockDonations.take 5
        ∧ (Api.getRecentDonations s).length ≤ 5)
    ∧ (Api.getRecentDonations fiveState).map (fun d => d.paid_at)
        = [52, 42, 32, 22, 12]
    ∧ (Api.getRecentDonations fiveState).map (fun d => d.amount_sats)
        = [500, 400, 300, 200, 100] := by
  refine ⟨fun s => ⟨rfl, ?_⟩, by decide, by decide⟩
  rw [Api.getRecentDonations, List.length_take]
  exact min_le_left 5 s.mockDonations.length

/-- C7 counterexample: after five successful payments the call returns five
donations, not the three most recent, and offers no way to pass a limit. -/
theorem c7_limit_counterexample :
    (Api.getRecentDonations fiveState).length = 5
    ∧ (Api.getRecentDonations fiveState).length ≠ 3 := by
  decide

/-- C8, amended: only an absent donor name is replaced by Anonymous in the
returned invoice; an explicitly passed string, including the empty string
and whitespace-only strings, is stored verbatim.  At promotion time the JS
or-operator maps exactly the empty string to Anonymous in the Donation,
while whitespace-only names are kept as they are. -/
theorem c8_donor_name_normalization :
    (∀ (a : Int) (r : Option String) (t : Nat) (s : ApiState),
        (Api.createInvoice a none r t s).1.donor_name = "Anonymous")
    ∧ (∀ (a : Int) (n : String) (r : Option String) (t : Nat) (s : ApiState),
        (Api.createInvoice a (some n) r t s).1.donor_name = n)
    ∧ (∀ (s : ApiState) (inv : Invoice) (t : Nat),
        s.pendingInvoice = some inv → 1 ≤ s.pollCount →
        ((Api.getInvoiceStatus inv.payment_hash t s).2.mockDonations.head?).map
            (fun d => d.donor_name)
          = some (if inv.donor_name = "" then "Anonymous"
              else inv.donor_name)) := by
  refine ⟨fun a r t s => rfl, fun a n r t s => rfl, fun s inv t hp hc => ?_⟩
  rw [check_hit_paid inv t s hp hc]
  rfl

/-- C8 witness: promoting a pending invoice whose donor name is the empty
string records the donation under the name Anonymous. -/
theorem c8_donor_name_normalization_witness :
    c8State.pendingInvoice = some c8Invoice
    ∧ 1 ≤ c8State.pollCount
    ∧ ((Api.getInvoiceStatus c8Invoice.payment_hash 6 c8State).2.mockDonations.head?).map
        (fun d => d.donor_name) = some ("Anonymous") :=
  ⟨rfl, by decide,
    (c8_donor_name_normalization.2.2 c8State c8Invoice 6 rfl (by decide)).trans
      (by decide)⟩

/-- C8 counterexample: an invoice created with an explicitly empty donor
name carries the empty string, and one created with a whitespace-only name
carries that whitespace verbatim, not Anonymous. -/
theorem c8_empty_name_counterexample :
    (Api.createInvoice 100 (some ("")) none 0 initialState).1.donor_name = ""
    ∧ (Api.createInvoice 100 (some ("   ")) none 0 initialState).1.donor_name
        = "   "
    ∧ ("" : String) ≠ "Anonymous"
    ∧ ("   " : String) ≠ "Anonymous" := by
  decide

/-- C9, confirmed: for every amount in [1, 1000000] the invoice returned by
`createInvoice` carries an expiry of exactly 3600 seconds from creation. -/
theorem c9_expires_in_3600 (a : Int) (n r : Option String) (t : Nat)
    (s : ApiState) (h1 : 1 ≤ a) (h2 : a ≤ 1000000) :
    (Api.createInvoice a n r t s).1.expires_in = 3600 := rfl

/-- C9 witness: the statement applied to a 1000-sat invoice. -/
theorem c9_expires_in_3600_witness :
    (1 : Int) ≤ 1000 ∧ (1000 : Int) ≤ 1000000
    ∧ (Api.createInvoice 1000 (some ("Ann")) (some ("Shelter")) 12
          initialState).1.expires_in = 3600 :=
  ⟨by decide, by decide,
    c9_expires_in_3600 1000 (some ("Ann")) (some ("Shelter")) 12 initialState
      (by decide) (by decide)⟩

/-- C10, confirmed: `createInvoice` overwrites the single pending-invoice
slot with the new invoice, and as long as no later creation regenerates the
old payment hash, every status call for that old hash returns PENDING and
leaves the whole state, ledger included, unchanged, so the displaced invoice
is never promoted into a Donation. -/
theorem c10_single_pending_slot (s : ApiState) (h : String)
    (steps : List Step) (a : Int) (n r : Option String) (t t2 : Nat)
    (hfresh : Api.mkPaymentHash t ≠ h)
    (hav : ∀ st ∈ steps, stepAvoids h st) :
    (Api.createInvoice a n r t s).2.pendingInvoice
        = some (Api.createInvoice a n r t s).1
    ∧ Api.getInvoiceStatus h t2 (run (Api.createInvoice a n r t s).2 steps)
        = ({ status := .PENDING, paid_at := none },
            run (Api.createInvoice a n r t s).2 steps) := by
  refine ⟨createInvoice_pending a n r t s, ?_⟩
  apply check_miss
  apply pendingHashNe_run steps _ h _ hav
  intro inv hinv
  rw [createInvoice_pending] at hinv
  injection hinv with h2
  rw [← h2, createInvoice_hash]
  exact hfresh

/-- C10 witness: the statement applied to the C10 run, where a second
invoice created at time 2 displaces the invoice created at time 1 and the
old hash keeps answering PENDING through two further polls of the new
invoice. -/
theorem c10_single_pending_slot_witness :
    Api.mkPaymentHash 2 ≠ c10H
    ∧ (Api.createInvoice 300 none none 2 c10S0).2.pendingInvoice
        = some (Api.createInvoice 300 none none 2 c10S0).1
    ∧ Api.getInvoiceStatus c10H 9
          (run (Api.createInvoice 300 none none 2 c10S0).2 c10Steps)
        = ({ status := .PENDING, paid_at := none },
            run (Api.createInvoice 300 none none 2 c10S0).2 c10Steps) :=
  ⟨by decide,
    (c10_single_pending_slot c10S0 c10H c10Steps 300 none none 2 9 (by decide)
      (by
        intro st hst
        simp only [c10Steps, List.mem_cons, List.not_mem_nil] at hst
        rcases hst with rfl | rfl | hst
        · exact trivial
        · exact trivial
        · exact absurd hst (by simp))).1,
    (c10_single_pending_slot c10S0 c10H c10Steps 300 none none 2 9 (by decide)
      (by
        intro st hst
        simp only [c10Steps, List.mem_cons, List.not_mem_nil] at hst
        rcases hst with rfl | rfl | hst
        · exact trivial
        · exact trivial
        · exact absurd hst (by simp))).2⟩

end SatsForGood
